import Mathlib

set_option maxRecDepth 8000

/-!
Shallow embedding of the fingertip-mcp server sources.

The repository registers MCP tools that validate input with zod schemas,
issue one HTTP request to the Fingertip REST API, and convert the result
(or any failure) into a tool-output envelope holding text blocks.  The
sources contain several historical variants of the same server; we embed
the handlers the claims cite:

* variant C — the axios-based JavaScript server (src/unnamed/part_000,
  lines 900-1371): every tool, `getErrorMessage`, the `JSON.parse`
  content guard, and the `Error: `-prefixed catch branch;
* variant B — the TypeScript server using the fingertip client
  (src/unnamed/part_000, lines 391-899): update-block, update-page-theme
  and create-block with the string `content` guard;
* variant A — the TypeScript server (src/unnamed/part_000, lines 1-390):
  get-sites with `JSON.stringify(result, null, 2)` output;
* variant D — dist/index.js lines 1-558: the human-readable formatter,
  get-sites and update-block;
* variant E — dist/index.js lines 666-877: create-site with default
  status "ENABLED" and default page slug "home".

JavaScript objects destined for request bodies are embedded as
association lists `List (String × Json)`, so key presence and order are
explicit.  Machine behaviour that lives outside src/ (zod dispatch in
the MCP SDK) is modelled from the spec and marked as such.
-/

/-- A JSON value.  Numbers keep their source lexeme, the way the adapter
only ever moves them between a parse and a serialization. -/
inductive Json where
  | null
  | bool (b : Bool)
  | num (lexeme : String)
  | str (s : String)
  | arr (items : List Json)
  | obj (fields : List (String × Json))
deriving Repr

/-- A JavaScript value as it sits in an object literal: either a real
JSON value or `undefined` (which `JSON.stringify` drops from bodies). -/
inductive JsVal where
  | undef
  | val (j : Json)
deriving Repr

/-- Weight of a JSON value: at least one more than its nesting depth,
used as fuel for the traversals below. -/
def Json.weight : Json → Nat
  | .null => 1
  | .bool _ => 1
  | .num _ => 1
  | .str _ => 1
  | .arr [] => 1
  | .arr (x :: xs) => Json.weight x + Json.weight (Json.arr xs) + 1
  | .obj [] => 1
  | .obj ((_, v) :: fs) => Json.weight v + Json.weight (Json.obj fs) + 1

/-- Serialization of a JavaScript object to a wire body: keys holding
`undefined` are dropped, exactly as `JSON.stringify` does. -/
def toWire (l : List (String × JsVal)) : List (String × Json) :=
  l.filterMap fun p =>
    match p.2 with
    | .undef => none
    | .val j => some (p.1, j)

/-- Field access on a JSON object (`o.k` in JavaScript, `undefined`
when absent or when the receiver is not an object). -/
def Json.getField : Json → String → Option Json
  | .obj fs, k => fs.lookup k
  | _, _ => none

/-- The digits of a number lexeme before any exponent marker. -/
def mantissaChars : List Char → List Char
  | [] => []
  | c :: cs => if c = 'e' ∨ c = 'E' then [] else c :: mantissaChars cs

/-- Whether the numeric value of a lexeme is zero (so falsy in JS). -/
def jsNumIsZero (l : String) : Bool :=
  ((mantissaChars l.data).filter Char.isDigit).all fun c => c = '0'

/-- JavaScript truthiness of a JSON value. -/
def jsTruthy : Json → Bool
  | .null => false
  | .bool b => b
  | .num l => !(jsNumIsZero l)
  | .str s => !(s == "")
  | .arr _ => true
  | .obj _ => true

/-- The opening brace character. -/
def lbrace : Char := Char.ofNat 123

/-- The closing brace character. -/
def rbrace : Char := Char.ofNat 125

/-- Fuelled core of `jsToString`: the string JavaScript template
interpolation produces for a value. -/
def jsToStringF : Nat → Json → String
  | 0, _ => ""
  | f + 1, j =>
    match j with
    | .null => "null"
    | .bool b => cond b "true" "false"
    | .num l => l
    | .str s => s
    | .obj _ => "[object Object]"
    | .arr xs =>
        String.intercalate "," (xs.map fun x =>
          match x with
          | .null => ""
          | y => jsToStringF f y)

/-- String conversion of a JSON value under JS template interpolation. -/
def jsToString (j : Json) : String := jsToStringF j.weight j

/-- Escape one character for a JSON string literal. -/
def escChar (c : Char) : String :=
  if c = '"' then "\\\""
  else if c = '\\' then "\\\\"
  else if c = '\n' then "\\n"
  else if c = '\t' then "\\t"
  else if c = '\r' then "\\r"
  else String.singleton c

/-- A JSON string literal for `s`. -/
def quoteStr (s : String) : String :=
  "\"" ++ String.join (s.data.map escChar) ++ "\""

/-- Fuelled core of `Json.stringify` (compact form, no spaces), as
`JSON.stringify(x)` produces. -/
def stringifyF : Nat → Json → String
  | 0, _ => ""
  | f + 1, j =>
    match j with
    | .null => "null"
    | .bool b => cond b "true" "false"
    | .num l => l
    | .str s => quoteStr s
    | .arr xs => "[" ++ String.intercalate "," (xs.map (stringifyF f)) ++ "]"
    | .obj fs =>
        String.singleton lbrace ++
          String.intercalate ","
            (fs.map fun p => quoteStr p.1 ++ ":" ++ stringifyF f p.2) ++
          String.singleton rbrace

/-- Compact JSON serialization, the shape `JSON.stringify(x)` emits. -/
def Json.stringify (j : Json) : String := stringifyF j.weight j

/-- Fuelled core of the two-space pretty serialization
`JSON.stringify(x, null, 2)`; `ind` is the enclosing indentation. -/
def stringify2F : Nat → String → Json → String
  | 0, _, _ => ""
  | f + 1, ind, j =>
    match j with
    | .null => "null"
    | .bool b => cond b "true" "false"
    | .num l => l
    | .str s => quoteStr s
    | .arr [] => "[]"
    | .obj [] => String.singleton lbrace ++ String.singleton rbrace
    | .arr xs =>
        "[\n" ++
          String.intercalate ",\n"
            (xs.map fun x => ind ++ "  " ++ stringify2F f (ind ++ "  ") x) ++
          "\n" ++ ind ++ "]"
    | .obj fs =>
        String.singleton lbrace ++ "\n" ++
          String.intercalate ",\n"
            (fs.map fun p =>
              ind ++ "  " ++ quoteStr p.1 ++ ": " ++
                stringify2F f (ind ++ "  ") p.2) ++
          "\n" ++ ind ++ String.singleton rbrace

/-- Pretty JSON serialization with indent 2, as `JSON.stringify(x, null, 2)`. -/
def Json.stringify2 (j : Json) : String := stringify2F j.weight "" j

/-- JSON insignificant whitespace removal. -/
def skipWs : List Char → List Char
  | [] => []
  | c :: cs => if c = ' ' ∨ c = '\t' ∨ c = '\n' ∨ c = '\r' then skipWs cs else c :: cs

/-- Consume an expected literal character sequence. -/
def stripChars : List Char → List Char → Option (List Char)
  | [], cs => some cs
  | _ :: _, [] => none
  | p :: ps, c :: cs => if c = p then stripChars ps cs else none

/-- Numeric value of one hex digit. -/
def hexVal (c : Char) : Option Nat :=
  if '0' ≤ c ∧ c ≤ '9' then some (c.toNat - '0'.toNat)
  else if 'a' ≤ c ∧ c ≤ 'f' then some (c.toNat - 'a'.toNat + 10)
  else if 'A' ≤ c ∧ c ≤ 'F' then some (c.toNat - 'A'.toNat + 10)
  else none

/-- Body of a JSON string literal, after the opening quote: returns the
decoded string and the input after the closing quote. -/
def parseStrLoop : Nat → List Char → String → Option (String × List Char)
  | 0, _, _ => none
  | _ + 1, [], _ => none
  | f + 1, c :: cs, acc =>
    if c = '"' then some (acc, cs)
    else if c = '\\' then
      match cs with
      | [] => none
      | e :: cs2 =>
        if e = '"' then parseStrLoop f cs2 (acc.push '"')
        else if e = '\\' then parseStrLoop f cs2 (acc.push '\\')
        else if e = '/' then parseStrLoop f cs2 (acc.push '/')
        else if e = 'b' then parseStrLoop f cs2 (acc.push (Char.ofNat 8))
        else if e = 'f' then parseStrLoop f cs2 (acc.push (Char.ofNat 12))
        else if e = 'n' then parseStrLoop f cs2 (acc.push '\n')
        else if e = 'r' then parseStrLoop f cs2 (acc.push '\r')
        else if e = 't' then parseStrLoop f cs2 (acc.push '\t')
        else if e = 'u' then
          match cs2 with
          | a :: b :: c3 :: d :: cs3 =>
            match hexVal a, hexVal b, hexVal c3, hexVal d with
            | some va, some vb, some vc, some vd =>
                parseStrLoop f cs3
                  (acc.push (Char.ofNat (va * 4096 + vb * 256 + vc * 16 + vd)))
            | _, _, _, _ => none
          | _ => none
        else none
    else if c.toNat < 32 then none
    else parseStrLoop f cs (acc.push c)

/-- Longest digit run at the head of the input. -/
def takeDigits : List Char → String × List Char
  | [] => ("", [])
  | c :: cs =>
    if c.isDigit then
      let p := takeDigits cs
      (String.singleton c ++ p.1, p.2)
    else ("", c :: cs)

/-- A JSON number lexeme at the head of the input, per the RFC grammar
(no leading zeros, digits required after a point or an exponent). -/
def parseNumber (cs : List Char) : Option (String × List Char) :=
  let signed :=
    match cs with
    | c :: r => if c = '-' then some ("-", r) else some ("", cs)
    | [] => none
  match signed with
  | none => none
  | some (sg, cs1) =>
    match cs1 with
    | [] => none
    | c :: r =>
      let intPart : Option (String × List Char) :=
        if c = '0' then some ("0", r)
        else if c.isDigit then
          let p := takeDigits (c :: r)
          some (p.1, p.2)
        else none
      match intPart with
      | none => none
      | some (ip, cs2) =>
        let frac : Option (String × List Char) :=
          match cs2 with
          | '.' :: r2 =>
            let p := takeDigits r2
            if p.1 = "" then none else some ("." ++ p.1, p.2)
          | _ => some ("", cs2)
        match frac with
        | none => none
        | some (fp, cs3) =>
          let expo : Option (String × List Char) :=
            match cs3 with
            | e :: r3 =>
              if e = 'e' ∨ e = 'E' then
                match r3 with
                | s :: r4 =>
                  if s = '+' ∨ s = '-' then
                    let p := takeDigits r4
                    if p.1 = "" then none
                    else some (String.singleton e ++ String.singleton s ++ p.1, p.2)
                  else
                    let p := takeDigits r3
                    if p.1 = "" then none
                    else some (String.singleton e ++ p.1, p.2)
                | [] => none
              else some ("", cs3)
            | [] => some ("", cs3)
          match expo with
          | none => none
          | some (ep, cs4) => some (sg ++ ip ++ fp ++ ep, cs4)

/-- One JSON value at the head of the input.  `allowEmpty` is true except
directly after a comma, so trailing commas in containers are refused.
Containers recurse by re-reading the remaining items as a shorter
container, which keeps the recursion structural on the fuel. -/
def parseVal : Nat → Bool → List Char → Option (Json × List Char)
  | 0, _, _ => none
  | f + 1, allowEmpty, cs0 =>
    match skipWs cs0 with
    | [] => none
    | c :: cs =>
      if c = 'n' then
        match stripChars ['u', 'l', 'l'] cs with
        | some r => some (.null, r)
        | none => none
      else if c = 't' then
        match stripChars ['r', 'u', 'e'] cs with
        | some r => some (.bool true, r)
        | none => none
      else if c = 'f' then
        match stripChars ['a', 'l', 's', 'e'] cs with
        | some r => some (.bool false, r)
        | none => none
      else if c = '"' then
        match parseStrLoop (cs.length + 1) cs "" with
        | some (s, r) => some (.str s, r)
        | none => none
      else if c = '[' then
        match skipWs cs with
        | ']' :: r => if allowEmpty then some (.arr [], r) else none
        | cs2 =>
          match parseVal f true cs2 with
          | some (v, r) =>
            match skipWs r with
            | ',' :: r2 =>
              match parseVal f false ('[' :: r2) with
              | some (.arr vs, r3) => some (.arr (v :: vs), r3)
              | _ => none
            | ']' :: r2 => some (.arr [v], r2)
            | _ => none
          | none => none
      else if c = lbrace then
        match skipWs cs with
        | [] => none
        | d :: r =>
          if d = rbrace then
            if allowEmpty then some (.obj [], r) else none
          else if d = '"' then
            match parseStrLoop (r.length + 1) r "" with
            | some (k, r1) =>
              match skipWs r1 with
              | ':' :: r2 =>
                match parseVal f true r2 with
                | some (v, r3) =>
                  match skipWs r3 with
                  | ',' :: r4 =>
                    match parseVal f false (lbrace :: r4) with
                    | some (.obj fs, r5) => some (.obj ((k, v) :: fs), r5)
                    | _ => none
                  | e :: r4 =>
                    if e = rbrace then some (.obj [(k, v)], r4) else none
                  | [] => none
                | none => none
              | _ => none
            | none => none
          else none
      else
        match parseNumber (c :: cs) with
        | some (lex, r) => some (.num lex, r)
        | none => none

/-- The embedding of `JSON.parse`: one complete JSON value, nothing but
whitespace after it; `none` stands for the thrown `SyntaxError`. -/
def jsonParse (s : String) : Option Json :=
  match parseVal (2 * s.data.length + 10) true s.data with
  | some (v, r) => if skipWs r = [] then some v else none
  | none => none

/-- Hexadecimal digit test, both cases. -/
def isHexDigit (c : Char) : Bool :=
  c.isDigit ∨ ('a' ≤ c ∧ c ≤ 'f') ∨ ('A' ≤ c ∧ c ≤ 'F')

/-- What character the UUID grammar expects at position `i`. -/
def uuidCharOk (i : Nat) (c : Char) : Bool :=
  if i = 8 ∨ i = 13 ∨ i = 18 ∨ i = 23 then c = '-' else isHexDigit c

/-- Syntactic RFC-4122 UUID shape, the check `z.string().uuid()`
performs: 36 characters, hyphens at positions 8, 13, 18 and 23, hex
digits everywhere else. -/
def isValidUUID (s : String) : Bool :=
  s.data.length = 36 ∧ s.data.enum.all fun p => uuidCharOk p.1 p.2

/-- One text block of a tool-output envelope (`type: "text"`). -/
structure TextBlock where
  text : String
deriving Repr

/-- A tool-output envelope: the `content` array the handler returns. -/
structure Envelope where
  content : List TextBlock
deriving Repr

/-- One outbound HTTP request as the handlers build it. -/
structure Request where
  method : String
  path : String
  query : List (String × Json)
  body : Option (List (String × Json))
deriving Repr

/-- What the upstream axios call does on a given invocation. -/
inductive UpstreamOutcome where
  | success (data : Json)
  | httpError (status : Nat) (data : Json)
  | networkError (msg : String)
deriving Repr

/-- What a fingertip-client call does on a given invocation (variants
A, B, D and E: the thrown error only contributes its message). -/
inductive ClientOutcome where
  | success (data : Json)
  | failure (msg : String)
deriving Repr

/-- A thrown JavaScript error as `getErrorMessage` distinguishes them. -/
inductive JsError where
  | axiosHttp (status : Nat) (data : Json)
  | axiosNetwork (msg : String)
  | other (msg : String)
deriving Repr

/-- The message axios gives an HTTP-status error. -/
def axiosStatusMessage (status : Nat) : String :=
  "Request failed with status code " ++ toString status

/-- The helper `getErrorMessage` of the axios variant: the response
body's `message` field when present and truthy, else the error's own
message, else the stringified value. -/
def getErrorMessage : JsError → String
  | .axiosHttp status data =>
    match data.getField "message" with
    | some m => if jsTruthy m then jsToString m else axiosStatusMessage status
    | none => axiosStatusMessage status
  | .axiosNetwork m => m
  | .other m => m

/-- The message the JS engine supplies with a `JSON.parse` SyntaxError;
its wording is engine-defined, so it is modelled opaquely. -/
def parseErrorMessage (_s : String) : String :=
  "Unexpected token"

/-- An association-list entry present exactly when the value is. -/
def optEntry (k : String) (v : Option Json) : List (String × Json) :=
  match v with
  | none => []
  | some j => [(k, j)]

/-- A nullable reference field that was explicitly provided:
`none` is an explicit JS `null`. -/
def optNull : Option String → Json
  | none => .null
  | some s => .str s

/-- The envelope carrying a `JSON.parse` failure on a string `content`
field, as the guards in variants B and C build it. -/
def parseErrorEnvelope (c : String) : Envelope :=
  ⟨[⟨"Error parsing content JSON: " ++ parseErrorMessage c⟩]⟩

/-- The whole body of every axios-variant tool: one request, then either
the serialized response data or the catch branch with the `Error: `
prefix over `getErrorMessage`. -/
def axiosCall (method path : String) (query : List (String × Json))
    (body : Option (List (String × Json))) (o : UpstreamOutcome) :
    Envelope × List Request :=
  let req : Request := ⟨method, path, query, body⟩
  match o with
  | .success data => (⟨[⟨Json.stringify data⟩]⟩, [req])
  | .httpError st d =>
      (⟨[⟨"Error: " ++ getErrorMessage (.axiosHttp st d)⟩]⟩, [req])
  | .networkError m =>
      (⟨[⟨"Error: " ++ getErrorMessage (.axiosNetwork m)⟩]⟩, [req])

/-- The shared body of the fingertip-client tools of variant B: one
request, then the serialized response data or the catch branch
`Error: ` ++ the thrown error's message. -/
def clientCall (method path : String) (body : Option (List (String × Json)))
    (o : ClientOutcome) : Envelope × List Request :=
  let req : Request := ⟨method, path, [], body⟩
  match o with
  | .success data => (⟨[⟨Json.stringify data⟩]⟩, [req])
  | .failure m => (⟨[⟨"Error: " ++ m⟩]⟩, [req])

/-- The `ping` tool of the axios variant. -/
def pingC (o : UpstreamOutcome) : Envelope × List Request :=
  axiosCall "GET" "/ping" [] none o

/-- Input of the axios-variant `get-sites` tool, one `Option` per
optional schema field. -/
structure GetSitesInputC where
  cursor : Option String
  search : Option String
  pageSize : Option String
  workspaceId : Option String
  statuses : Option (List String)
  sortBy : Option String
  sortDirection : Option String

/-- Query parameters the axios-variant `get-sites` forwards: the fields
present in the parsed input. -/
def getSitesParamsC (i : GetSitesInputC) : List (String × Json) :=
  optEntry "cursor" (i.cursor.map .str) ++
  optEntry "search" (i.search.map .str) ++
  optEntry "pageSize" (i.pageSize.map .str) ++
  optEntry "workspaceId" (i.workspaceId.map .str) ++
  optEntry "statuses" (i.statuses.map fun l => .arr (l.map .str)) ++
  optEntry "sortBy" (i.sortBy.map .str) ++
  optEntry "sortDirection" (i.sortDirection.map .str)

/-- The `get-sites` tool of the axios variant. -/
def getSitesC (i : GetSitesInputC) (o : UpstreamOutcome) :
    Envelope × List Request :=
  axiosCall "GET" "/sites" (getSitesParamsC i) none o

/-- The `get-site` tool of the axios variant. -/
def getSiteC (siteId : String) (o : UpstreamOutcome) :
    Envelope × List Request :=
  axiosCall "GET" ("/sites/" ++ siteId) [] none o

/-- Input of the axios-variant `create-site` tool; `pages` is the
already-validated pages array. -/
structure CreateSiteInputC where
  name : String
  slug : String
  businessType : String
  description : Option String
  status : Option String
  pages : Option Json

/-- The JS idiom `x || null` on an optional string field. -/
def strOrNull : Option String → Json
  | none => .null
  | some s => if s = "" then .null else .str s

/-- The default single page `create-site` supplies in the axios variant:
slug "index", the site's name and description, an empty theme, no
blocks. -/
def defaultPagesC (name : String) (description : Option String) : Json :=
  .arr [.obj [("slug", .str "index"), ("name", .str name),
    ("description", strOrNull description),
    ("pageTheme", .obj [("content", .obj []), ("componentPageThemeId", .null)]),
    ("blocks", .arr [])]]

/-- The `siteData` body of the axios-variant `create-site`: description
coerced with `|| null`, status defaulted with `|| "UNPUBLISHED"`, pages
defaulted with `|| [defaultPage]`. -/
def createSiteDataC (i : CreateSiteInputC) : List (String × Json) :=
  [("name", .str i.name), ("slug", .str i.slug),
   ("businessType", .str i.businessType),
   ("description", strOrNull i.description),
   ("status", .str (match i.status with
     | none => "UNPUBLISHED"
     | some s => if s = "" then "UNPUBLISHED" else s)),
   ("pages", match i.pages with
     | none => defaultPagesC i.name i.description
     | some j => if jsTruthy j then j else defaultPagesC i.name i.description)]

/-- The `create-site` tool of the axios variant. -/
def createSiteC (i : CreateSiteInputC) (o : UpstreamOutcome) :
    Envelope × List Request :=
  axiosCall "POST" "/sites" [] (some (createSiteDataC i)) o

/-- The `get-page` tool of the axios variant. -/
def getPageC (pageId : String) (o : UpstreamOutcome) :
    Envelope × List Request :=
  axiosCall "GET" ("/pages/" ++ pageId) [] none o

/-- Input of the axios-variant `update-page` tool. -/
structure UpdatePageInputC where
  pageId : String
  name : Option String
  description : Option String
  position : Option Int
  slug : Option String
  bannerMedia : Option (List (String × Json))
  logoMedia : Option (List (String × Json))
  socialIcons : Option (List (String × Json))

/-- The rest-spread `updateData` body of the axios-variant
`update-page`: exactly the provided fields. -/
def updatePageDataC (i : UpdatePageInputC) : List (String × Json) :=
  optEntry "name" (i.name.map .str) ++
  optEntry "description" (i.description.map .str) ++
  optEntry "position" (i.position.map fun n => .num (toString n)) ++
  optEntry "slug" (i.slug.map .str) ++
  optEntry "bannerMedia" (i.bannerMedia.map .obj) ++
  optEntry "logoMedia" (i.logoMedia.map .obj) ++
  optEntry "socialIcons" (i.socialIcons.map .obj)

/-- The `update-page` tool of the axios variant. -/
def updatePageC (i : UpdatePageInputC) (o : UpstreamOutcome) :
    Envelope × List Request :=
  axiosCall "PATCH" ("/pages/" ++ i.pageId) [] (some (updatePageDataC i)) o

/-- The `get-page-blocks` tool of the axios variant. -/
def getPageBlocksC (pageId : String) (o : UpstreamOutcome) :
    Envelope × List Request :=
  axiosCall "GET" ("/pages/" ++ pageId ++ "/blocks") [] none o

/-- Input of the axios-variant `create-block` tool.  In
`componentBlockId`, the outer `Option` is schema optionality and the
inner one nullability (`some none` is an explicit JS `null`). -/
structure CreateBlockInputC where
  pageId : String
  name : String
  content : Option String
  kind : Option String
  isComponent : Option Bool
  componentBlockId : Option (Option String)

/-- The `blockData` of the axios-variant `create-block` before the
content guard: the rest-spread fields, with `componentBlockId`
overwritten by `restData.componentBlockId || null`. -/
def createBlockDataC (i : CreateBlockInputC) : List (String × Json) :=
  [("name", .str i.name)] ++
  optEntry "kind" (i.kind.map .str) ++
  optEntry "isComponent" (i.isComponent.map .bool) ++
  [("componentBlockId", match i.componentBlockId with
    | some (some s) => if s = "" then .null else .str s
    | _ => .null)]

/-- The `create-block` tool of the axios variant: the truthiness guard
`if (content)` parses a provided non-empty `content` string, failing
locally on bad JSON before any request. -/
def createBlockC (i : CreateBlockInputC) (o : UpstreamOutcome) :
    Envelope × List Request :=
  let path := "/pages/" ++ i.pageId ++ "/blocks"
  match i.content with
  | none => axiosCall "POST" path [] (some (createBlockDataC i)) o
  | some c =>
    if c = "" then axiosCall "POST" path [] (some (createBlockDataC i)) o
    else
      match jsonParse c with
      | some v =>
          axiosCall "POST" path [] (some (createBlockDataC i ++ [("content", v)])) o
      | none => (parseErrorEnvelope c, [])

/-- The `get-page-theme` tool of the axios variant. -/
def getPageThemeC (pageId : String) (o : UpstreamOutcome) :
    Envelope × List Request :=
  axiosCall "GET" ("/pages/" ++ pageId ++ "/theme") [] none o

/-- Input of the axios-variant `update-page-theme` tool. -/
structure UpdatePageThemeInputC where
  pageId : String
  content : Option String
  isComponent : Option Bool
  componentPageThemeId : Option (Option String)

/-- The rest-spread part of the axios-variant `update-page-theme` body. -/
def updatePageThemeDataC (i : UpdatePageThemeInputC) : List (String × Json) :=
  optEntry "isComponent" (i.isComponent.map .bool) ++
  (match i.componentPageThemeId with
   | none => []
   | some w => [("componentPageThemeId", optNull w)])

/-- The `update-page-theme` tool of the axios variant. -/
def updatePageThemeC (i : UpdatePageThemeInputC) (o : UpstreamOutcome) :
    Envelope × List Request :=
  let path := "/pages/" ++ i.pageId ++ "/theme"
  match i.content with
  | none => axiosCall "PATCH" path [] (some (updatePageThemeDataC i)) o
  | some c =>
    if c = "" then axiosCall "PATCH" path [] (some (updatePageThemeDataC i)) o
    else
      match jsonParse c with
      | some v =>
          axiosCall "PATCH" path []
            (some (updatePageThemeDataC i ++ [("content", v)])) o
      | none => (parseErrorEnvelope c, [])

/-- The `get-block` tool of the axios variant. -/
def getBlockC (blockId : String) (o : UpstreamOutcome) :
    Envelope × List Request :=
  axiosCall "GET" ("/blocks/" ++ blockId) [] none o

/-- Input of the axios-variant `update-block` tool. -/
structure UpdateBlockInputC where
  blockId : String
  name : Option String
  content : Option String
  kind : Option String
  isComponent : Option Bool
  componentBlockId : Option (Option String)

/-- The rest-spread part of the axios-variant `update-block` body:
exactly the provided fields, an explicit `null` kept as `null`. -/
def updateBlockDataC (i : UpdateBlockInputC) : List (String × Json) :=
  optEntry "name" (i.name.map .str) ++
  optEntry "kind" (i.kind.map .str) ++
  optEntry "isComponent" (i.isComponent.map .bool) ++
  (match i.componentBlockId with
   | none => []
   | some w => [("componentBlockId", optNull w)])

/-- The `update-block` tool of the axios variant. -/
def updateBlockC (i : UpdateBlockInputC) (o : UpstreamOutcome) :
    Envelope × List Request :=
  let path := "/blocks/" ++ i.blockId
  match i.content with
  | none => axiosCall "PATCH" path [] (some (updateBlockDataC i)) o
  | some c =>
    if c = "" then axiosCall "PATCH" path [] (some (updateBlockDataC i)) o
    else
      match jsonParse c with
      | some v =>
          axiosCall "PATCH" path [] (some (updateBlockDataC i ++ [("content", v)])) o
      | none => (parseErrorEnvelope c, [])

/-- The `delete-block` tool of the axios variant. -/
def deleteBlockC (blockId : String) (o : UpstreamOutcome) :
    Envelope × List Request :=
  axiosCall "DELETE" ("/blocks/" ++ blockId) [] none o

/-- Modelled from the spec: the MCP SDK layer (outside src/) checks the
declared zod schema before a handler runs and, on failure, answers with
the uniform error envelope of §4.4 without invoking the handler, so no
network call is attempted. -/
def validationErrorEnvelope : Envelope := ⟨[⟨"Error: Invalid arguments"⟩]⟩

/-- A declared nullable-optional uuid field is valid when absent,
explicitly null, or a syntactic UUID. -/
def validOptUuid : Option (Option String) → Bool
  | some (some s) => isValidUUID s
  | _ => true

/-- Modelled from the spec: zod-validated dispatch of `get-site`. -/
def invokeGetSiteC (siteId : String) (o : UpstreamOutcome) :
    Envelope × List Request :=
  if isValidUUID siteId then getSiteC siteId o
  else (validationErrorEnvelope, [])

/-- Modelled from the spec: zod-validated dispatch of `get-page`. -/
def invokeGetPageC (pageId : String) (o : UpstreamOutcome) :
    Envelope × List Request :=
  if isValidUUID pageId then getPageC pageId o
  else (validationErrorEnvelope, [])

/-- Modelled from the spec: zod-validated dispatch of `update-page`. -/
def invokeUpdatePageC (i : UpdatePageInputC) (o : UpstreamOutcome) :
    Envelope × List Request :=
  if isValidUUID i.pageId then updatePageC i o
  else (validationErrorEnvelope, [])

/-- Modelled from the spec: zod-validated dispatch of `get-page-blocks`. -/
def invokeGetPageBlocksC (pageId : String) (o : UpstreamOutcome) :
    Envelope × List Request :=
  if isValidUUID pageId then getPageBlocksC pageId o
  else (validationErrorEnvelope, [])

/-- Modelled from the spec: zod-validated dispatch of `create-block`. -/
def invokeCreateBlockC (i : CreateBlockInputC) (o : UpstreamOutcome) :
    Envelope × List Request :=
  if isValidUUID i.pageId ∧ validOptUuid i.componentBlockId then
    createBlockC i o
  else (validationErrorEnvelope, [])

/-- Modelled from the spec: zod-validated dispatch of `get-page-theme`. -/
def invokeGetPageThemeC (pageId : String) (o : UpstreamOutcome) :
    Envelope × List Request :=
  if isValidUUID pageId then getPageThemeC pageId o
  else (validationErrorEnvelope, [])

/-- Modelled from the spec: zod-validated dispatch of `update-page-theme`. -/
def invokeUpdatePageThemeC (i : UpdatePageThemeInputC) (o : UpstreamOutcome) :
    Envelope × List Request :=
  if isValidUUID i.pageId ∧ validOptUuid i.componentPageThemeId then
    updatePageThemeC i o
  else (validationErrorEnvelope, [])

/-- Modelled from the spec: zod-validated dispatch of `get-block`. -/
def invokeGetBlockC (blockId : String) (o : UpstreamOutcome) :
    Envelope × List Request :=
  if isValidUUID blockId then getBlockC blockId o
  else (validationErrorEnvelope, [])

/-- Modelled from the spec: zod-validated dispatch of `update-block`. -/
def invokeUpdateBlockC (i : UpdateBlockInputC) (o : UpstreamOutcome) :
    Envelope × List Request :=
  if isValidUUID i.blockId ∧ validOptUuid i.componentBlockId then
    updateBlockC i o
  else (validationErrorEnvelope, [])

/-- Modelled from the spec: zod-validated dispatch of `delete-block`. -/
def invokeDeleteBlockC (blockId : String) (o : UpstreamOutcome) :
    Envelope × List Request :=
  if isValidUUID blockId then deleteBlockC blockId o
  else (validationErrorEnvelope, [])

/-- The rest-spread body of the client-variant `update-block` (variant
B): the provided `name` and `kind` fields. -/
def updateBlockRestB (name kind : Option String) : List (String × Json) :=
  optEntry "name" (name.map .str) ++ optEntry "kind" (kind.map .str)

/-- The `update-block` tool of variant B: same truthiness content guard
over a string `content`, request issued through the fingertip client. -/
def updateBlockB (blockId : String) (name content kind : Option String)
    (o : ClientOutcome) : Envelope × List Request :=
  let path := "/blocks/" ++ blockId
  match content with
  | none => clientCall "PATCH" path (some (updateBlockRestB name kind)) o
  | some c =>
    if c = "" then clientCall "PATCH" path (some (updateBlockRestB name kind)) o
    else
      match jsonParse c with
      | some v =>
          clientCall "PATCH" path
            (some (updateBlockRestB name kind ++ [("content", v)])) o
      | none => (parseErrorEnvelope c, [])

/-- The `update-page-theme` tool of variant B: the schema has only
`pageId` and the string `content`, so the rest spread is empty. -/
def updatePageThemeB (pageId : String) (content : Option String)
    (o : ClientOutcome) : Envelope × List Request :=
  let path := "/pages/" ++ pageId ++ "/theme"
  match content with
  | none => clientCall "PATCH" path (some []) o
  | some c =>
    if c = "" then clientCall "PATCH" path (some []) o
    else
      match jsonParse c with
      | some v => clientCall "PATCH" path (some [("content", v)]) o
      | none => (parseErrorEnvelope c, [])

/-- The `blockData` object of variant B's `create-block`: note
`componentBlockId` is passed through, so an absent field sits in the
object as `undefined` and is dropped by body serialization. -/
def createBlockDataB (name kind : String) (isComponent : Option Bool)
    (componentBlockId : Option (Option String)) : List (String × JsVal) :=
  [("name", .val (.str name)), ("kind", .val (.str kind)),
   ("isComponent", .val (.bool (match isComponent with
     | some b => b
     | none => false))),
   ("componentBlockId", match componentBlockId with
     | none => .undef
     | some w => .val (optNull w))]

/-- The `create-block` tool of variant B. -/
def createBlockB (pageId name : String) (content : Option String)
    (kind : String) (isComponent : Option Bool)
    (componentBlockId : Option (Option String)) (o : ClientOutcome) :
    Envelope × List Request :=
  let path := "/pages/" ++ pageId ++ "/blocks"
  let base := createBlockDataB name kind isComponent componentBlockId
  match content with
  | none => clientCall "POST" path (some (toWire base)) o
  | some c =>
    if c = "" then clientCall "POST" path (some (toWire base)) o
    else
      match jsonParse c with
      | some v =>
          clientCall "POST" path (some (toWire (base ++ [("content", .val v)]))) o
      | none => (parseErrorEnvelope c, [])

/-- The `get-sites` tool of variant A: provided params forwarded, the
response pretty-printed with `JSON.stringify(result, null, 2)`. -/
def getSitesA (cursor search : Option String) (o : ClientOutcome) :
    Envelope × List Request :=
  let req : Request :=
    ⟨"GET", "/sites",
      optEntry "cursor" (cursor.map .str) ++ optEntry "search" (search.map .str),
      none⟩
  match o with
  | .success data => (⟨[⟨Json.stringify2 data⟩]⟩, [req])
  | .failure m => (⟨[⟨"Error: " ++ m⟩]⟩, [req])

/-- A field rendered by JS template interpolation: `undefined` when
absent, the interpolated value otherwise. -/
def jsField (j : Json) (k : String) : String :=
  match j.getField k with
  | some v => jsToString v
  | none => "undefined"

/-- A field rendered through the `x || alt` idiom of the formatters. -/
def jsFieldOr (j : Json) (k alt : String) : String :=
  match j.getField k with
  | some v => if jsTruthy v then jsToString v else alt
  | none => alt

/-- One line group of variant D's `get-sites` listing. -/
def formatSiteD (s : Json) : String :=
  "ID: " ++ jsField s "id" ++ "\nName: " ++ jsField s "name" ++
  "\nSlug: " ++ jsField s "slug" ++ "\nStatus: " ++ jsField s "status" ++
  "\nCreated: " ++ jsField s "createdAt" ++ "\n---"

/-- The query params variant D's `get-sites` builds with its truthiness
guards (`if (pageSize)`, `if (cursor)`, `if (search)`). -/
def getSitesParamsD (pageSize : Option Int) (cursor search : Option String) :
    List (String × Json) :=
  (match pageSize with
   | some n => if n = 0 then [] else [("pageSize", .str (toString n))]
   | none => []) ++
  (match cursor with
   | some c => if c = "" then [] else [("cursor", .str c)]
   | none => []) ++
  (match search with
   | some s => if s = "" then [] else [("search", .str s)]
   | none => [])

/-- The `get-sites` tool of variant D (dist/index.js): response-shape
checks, a human-readable listing, and a catch branch whose text carries
no `Error: ` prefix. -/
def getSitesD (pageSize : Option Int) (cursor search : Option String)
    (o : ClientOutcome) : Envelope × List Request :=
  let req : Request := ⟨"GET", "/sites", getSitesParamsD pageSize cursor search, none⟩
  match o with
  | .failure _ =>
      (⟨[⟨"Failed to retrieve sites. Please check your API key and try again."⟩]⟩,
        [req])
  | .success data =>
    if jsTruthy data then
      match data.getField "items" with
      | some (.arr xs) =>
        if xs.length = 0 then (⟨[⟨"No sites found"⟩]⟩, [req])
        else
          (⟨[⟨"Sites (" ++ jsField data "total" ++ " total):\n\n" ++
            String.intercalate "\n" (xs.map formatSiteD)⟩]⟩, [req])
      | some v =>
        if jsTruthy v then
          (⟨[⟨"Failed to retrieve sites. Please check your API key and try again."⟩]⟩,
            [req])
        else (⟨[⟨"Failed to retrieve sites data"⟩]⟩, [req])
      | none => (⟨[⟨"Failed to retrieve sites data"⟩]⟩, [req])
    else (⟨[⟨"Failed to retrieve sites data"⟩]⟩, [req])

/-- The body of variant D's `update-block`: one key per field provided,
checked with `!== undefined`, so an explicit null is kept. -/
def updateBlockDataD (name : Option String) (content : Option Json)
    (kind : Option String) (isComponent : Option Bool)
    (componentBlockId : Option (Option String)) : List (String × Json) :=
  optEntry "name" (name.map .str) ++
  optEntry "content" content ++
  optEntry "kind" (kind.map .str) ++
  optEntry "isComponent" (isComponent.map .bool) ++
  (match componentBlockId with
   | none => []
   | some w => [("componentBlockId", optNull w)])

/-- The success listing of variant D's `update-block`. -/
def blockTextD (block : Json) : String :=
  String.intercalate "\n"
    ["Block updated successfully:",
     "ID: " ++ jsField block "id",
     "Name: " ++ jsField block "name",
     "Page ID: " ++ jsField block "pageId",
     "Kind: " ++ jsFieldOr block "kind" "None",
     "Is Component: " ++ jsField block "isComponent",
     "Component Block ID: " ++ jsFieldOr block "componentBlockId" "None",
     "Updated: " ++ jsField block "updatedAt"]

/-- The `update-block` tool of variant D (dist/index.js lines 477-549). -/
def updateBlockD (blockId : String) (name : Option String)
    (content : Option Json) (kind : Option String)
    (isComponent : Option Bool) (componentBlockId : Option (Option String))
    (o : ClientOutcome) : Envelope × List Request :=
  let req : Request :=
    ⟨"PATCH", "/blocks/" ++ blockId, [],
      some (updateBlockDataD name content kind isComponent componentBlockId)⟩
  match o with
  | .failure _ =>
      (⟨[⟨"Failed to update block with ID: " ++ blockId ++
        ". The block may not exist or you may not have permission to update it."⟩]⟩,
        [req])
  | .success data =>
    if jsTruthy data then
      match data.getField "block" with
      | some block =>
        if jsTruthy block then (⟨[⟨blockTextD block⟩]⟩, [req])
        else (⟨[⟨"Failed to update block with ID: " ++ blockId⟩]⟩, [req])
      | none => (⟨[⟨"Failed to update block with ID: " ++ blockId⟩]⟩, [req])
    else (⟨[⟨"Failed to update block with ID: " ++ blockId⟩]⟩, [req])

/-- The `siteData` body of variant E's `create-site` (dist/index.js
lines 786-825): destructuring default `status = "ENABLED"`, a single
default page with slug "home", name "Home", a null-content theme and no
blocks. -/
def createSiteDataE (name slug businessType : String)
    (description : Option String) (status : Option String) :
    List (String × Json) :=
  [("name", .str name), ("slug", .str slug),
   ("businessType", .str businessType),
   ("description", strOrNull description),
   ("status", .str (match status with
     | none => "ENABLED"
     | some s => s)),
   ("pages", .arr [.obj [("slug", .str "home"), ("name", .str "Home"),
     ("pageTheme", .obj [("content", .null), ("isComponent", .bool false),
       ("componentPageThemeId", .null)]),
     ("blocks", .arr [])]])]

/-- The success listing of variant E's `create-site`. -/
def siteTextE (site : Json) : String :=
  String.intercalate "\n"
    ["Site created successfully:",
     "ID: " ++ jsField site "id",
     "Name: " ++ jsField site "name",
     "Slug: " ++ jsField site "slug",
     "Business Type: " ++ jsField site "businessType",
     "Status: " ++ jsField site "status",
     "Created: " ++ jsField site "createdAt"]

/-- The `create-site` tool of variant E. -/
def createSiteE (name slug businessType : String)
    (description : Option String) (status : Option String)
    (o : ClientOutcome) : Envelope × List Request :=
  let req : Request :=
    ⟨"POST", "/sites", [],
      some (createSiteDataE name slug businessType description status)⟩
  match o with
  | .failure _ =>
      (⟨[⟨"Failed to create site. There might be a validation error or the slug \"" ++
        slug ++ "\" might already be in use."⟩]⟩, [req])
  | .success data =>
    if jsTruthy data then
      match data.getField "site" with
      | some site =>
        if jsTruthy site then (⟨[⟨siteTextE site⟩]⟩, [req])
        else (⟨[⟨"Failed to create site: " ++ name⟩]⟩, [req])
      | none => (⟨[⟨"Failed to create site: " ++ name⟩]⟩, [req])
    else (⟨[⟨"Failed to create site: " ++ name⟩]⟩, [req])

/-- The axios pipeline answers with exactly one text block whatever the
outcome. -/
theorem axiosCall_content_length (m p : String) (q : List (String × Json))
    (b : Option (List (String × Json))) (o : UpstreamOutcome) :
    (axiosCall m p q b o).1.content.length = 1 := by
  cases o <;> rfl

/-- The client pipeline answers with exactly one text block whatever the
outcome. -/
theorem clientCall_content_length (m p : String)
    (b : Option (List (String × Json))) (o : ClientOutcome) :
    (clientCall m p b o).1.content.length = 1 := by
  cases o <;> rfl

/-- The empty string is not JSON. -/
theorem jsonParse_empty : jsonParse "" = none := rfl

/-- Claim C1: for every modelled tool handler of every variant, every
input, and every outcome of the upstream call (success, non-2xx
response, network failure or thrown error), the handler returns an
envelope holding exactly one text block — in particular at least one —
and, being a total function of the input and the outcome, lets no
exception propagate. -/
theorem all_tools_return_text_envelope :
    (∀ o, (pingC o).1.content.length = 1) ∧
    (∀ i o, (getSitesC i o).1.content.length = 1) ∧
    (∀ s o, (getSiteC s o).1.content.length = 1) ∧
    (∀ i o, (createSiteC i o).1.content.length = 1) ∧
    (∀ p o, (getPageC p o).1.content.length = 1) ∧
    (∀ i o, (updatePageC i o).1.content.length = 1) ∧
    (∀ p o, (getPageBlocksC p o).1.content.length = 1) ∧
    (∀ i o, (createBlockC i o).1.content.length = 1) ∧
    (∀ p o, (getPageThemeC p o).1.content.length = 1) ∧
    (∀ i o, (updatePageThemeC i o).1.content.length = 1) ∧
    (∀ s o, (getBlockC s o).1.content.length = 1) ∧
    (∀ i o, (updateBlockC i o).1.content.length = 1) ∧
    (∀ s o, (deleteBlockC s o).1.content.length = 1) ∧
    (∀ c s o, (getSitesA c s o).1.content.length = 1) ∧
    (∀ ps cu se o, (getSitesD ps cu se o).1.content.length = 1) ∧
    (∀ b n ct k ic cb o,
      (updateBlockD b n ct k ic cb o).1.content.length = 1) ∧
    (∀ n s b d st o, (createSiteE n s b d st o).1.content.length = 1) ∧
    (∀ b n c k o, (updateBlockB b n c k o).1.content.length = 1) ∧
    (∀ p c o, (updatePageThemeB p c o).1.content.length = 1) ∧
    (∀ p nm c k ic cb o,
      (createBlockB p nm c k ic cb o).1.content.length = 1) := by
  refine ⟨?_, ?_, ?_, ?_, ?_, ?_, ?_, ?_, ?_, ?_, ?_, ?_, ?_, ?_, ?_, ?_,
    ?_, ?_, ?_, ?_⟩
  · intro o; cases o <;> rfl
  · intro i o; cases o <;> rfl
  · intro s o; cases o <;> rfl
  · intro i o; cases o <;> rfl
  · intro p o; cases o <;> rfl
  · intro i o; cases o <;> rfl
  · intro p o; cases o <;> rfl
  · intro i o
    obtain ⟨pid, nm, c, k, ic, cb⟩ := i
    cases c with
    | none => cases o <;> rfl
    | some s =>
      rcases eq_or_ne s "" with h | h
      · subst h; cases o <;> rfl
      · cases hp : jsonParse s with
        | none => simp [createBlockC, h, hp, parseErrorEnvelope]
        | some v => cases o <;> simp [createBlockC, h, hp, axiosCall]
  · intro p o; cases o <;> rfl
  · intro i o
    obtain ⟨pid, c, ic, cp⟩ := i
    cases c with
    | none => cases o <;> rfl
    | some s =>
      rcases eq_or_ne s "" with h | h
      · subst h; cases o <;> rfl
      · cases hp : jsonParse s with
        | none => simp [updatePageThemeC, h, hp, parseErrorEnvelope]
        | some v => cases o <;> simp [updatePageThemeC, h, hp, axiosCall]
  · intro s o; cases o <;> rfl
  · intro i o
    obtain ⟨bid, n, c, k, ic, cb⟩ := i
    cases c with
    | none => cases o <;> rfl
    | some s =>
      rcases eq_or_ne s "" with h | h
      · subst h; cases o <;> rfl
      · cases hp : jsonParse s with
        | none => simp [updateBlockC, h, hp, parseErrorEnvelope]
        | some v => cases o <;> simp [updateBlockC, h, hp, axiosCall]
  · intro s o; cases o <;> rfl
  · intro c s o; cases o <;> rfl
  · intro ps cu se o
    cases o with
    | failure m => rfl
    | success d =>
      simp only [getSitesD]
      split
      · split
        · split <;> rfl
        · split <;> rfl
        · rfl
      · rfl
  · intro b n ct k ic cb o
    cases o with
    | failure m => rfl
    | success d =>
      simp only [updateBlockD]
      split
      · split
        · split <;> rfl
        · rfl
      · rfl
  · intro n s b d st o
    cases o with
    | failure m => rfl
    | success data =>
      simp only [createSiteE]
      split
      · split
        · split <;> rfl
        · rfl
      · rfl
  · intro b n c k o
    cases c with
    | none => cases o <;> rfl
    | some s =>
      rcases eq_or_ne s "" with h | h
      · subst h; cases o <;> rfl
      · cases hp : jsonParse s with
        | none => simp [updateBlockB, h, hp, parseErrorEnvelope]
        | some v => cases o <;> simp [updateBlockB, h, hp, clientCall]
  · intro p c o
    cases c with
    | none => cases o <;> rfl
    | some s =>
      rcases eq_or_ne s "" with h | h
      · subst h; cases o <;> rfl
      · cases hp : jsonParse s with
        | none => simp [updatePageThemeB, h, hp, parseErrorEnvelope]
        | some v => cases o <;> simp [updatePageThemeB, h, hp, clientCall]
  · intro p nm c k ic cb o
    cases c with
    | none => cases o <;> rfl
    | some s =>
      rcases eq_or_ne s "" with h | h
      · subst h; cases o <;> rfl
      · cases hp : jsonParse s with
        | none => simp [createBlockB, h, hp, parseErrorEnvelope]
        | some v => cases o <;> simp [createBlockB, h, hp, clientCall]

/-- Claim C2: for every tool with a UUID-typed `siteId`, `pageId` or
`blockId` parameter, an input whose UUID parameter is not a syntactic
RFC-4122 UUID yields the validation-error envelope and an empty request
list, so no network call is made.  The zod dispatch itself lives in the
MCP SDK outside src/ and is modelled from the spec. -/
theorem invalid_uuid_short_circuits :
    (∀ s o, isValidUUID s = false →
      invokeGetSiteC s o = (validationErrorEnvelope, [])) ∧
    (∀ s o, isValidUUID s = false →
      invokeGetPageC s o = (validationErrorEnvelope, [])) ∧
    (∀ (i : UpdatePageInputC) o, isValidUUID i.pageId = false →
      invokeUpdatePageC i o = (validationErrorEnvelope, [])) ∧
    (∀ s o, isValidUUID s = false →
      invokeGetPageBlocksC s o = (validationErrorEnvelope, [])) ∧
    (∀ (i : CreateBlockInputC) o, isValidUUID i.pageId = false →
      invokeCreateBlockC i o = (validationErrorEnvelope, [])) ∧
    (∀ s o, isValidUUID s = false →
      invokeGetPageThemeC s o = (validationErrorEnvelope, [])) ∧
    (∀ (i : UpdatePageThemeInputC) o, isValidUUID i.pageId = false →
      invokeUpdatePageThemeC i o = (validationErrorEnvelope, [])) ∧
    (∀ s o, isValidUUID s = false →
      invokeGetBlockC s o = (validationErrorEnvelope, [])) ∧
    (∀ (i : UpdateBlockInputC) o, isValidUUID i.blockId = false →
      invokeUpdateBlockC i o = (validationErrorEnvelope, [])) ∧
    (∀ s o, isValidUUID s = false →
      invokeDeleteBlockC s o = (validationErrorEnvelope, [])) := by
  refine ⟨?_, ?_, ?_, ?_, ?_, ?_, ?_, ?_, ?_, ?_⟩
  · intro s o h; simp [invokeGetSiteC, h]
  · intro s o h; simp [invokeGetPageC, h]
  · intro i o h; simp [invokeUpdatePageC, h]
  · intro s o h; simp [invokeGetPageBlocksC, h]
  · intro i o h; simp [invokeCreateBlockC, h]
  · intro s o h; simp [invokeGetPageThemeC, h]
  · intro i o h; simp [invokeUpdatePageThemeC, h]
  · intro s o h; simp [invokeGetBlockC, h]
  · intro i o h; simp [invokeUpdateBlockC, h]
  · intro s o h; simp [invokeDeleteBlockC, h]

/-- Witness for claim C2 at the concrete non-UUID string "not-a-uuid":
the hypothesis holds and the invocation short-circuits. -/
theorem invalid_uuid_short_circuits_witness :
    isValidUUID "not-a-uuid" = false ∧
    invokeGetSiteC "not-a-uuid" (.success .null) =
      (validationErrorEnvelope, []) :=
  ⟨by decide,
    invalid_uuid_short_circuits.1 "not-a-uuid" (.success .null) (by decide)⟩

/-- Counterexample to claim C3 as stated: in the axios variant's
update-block, a `content` field explicitly provided as the empty string
is dropped from the outgoing body, and a `content` field provided as
the JSON string literal for "x" appears as the parsed value `"x"`, not
as the provided two-character-quoted string. -/
theorem update_block_content_counterexample :
    (updateBlockC
        ⟨"5de41cd2-7a1b-4883-8ba9-6552c6f228f8", none, some "", some "text",
          none, none⟩ (.success .null)).2 =
      [⟨"PATCH", "/blocks/5de41cd2-7a1b-4883-8ba9-6552c6f228f8", [],
        some [("kind", Json.str "text")]⟩] ∧
    (updateBlockC
        ⟨"5de41cd2-7a1b-4883-8ba9-6552c6f228f8", none, some "\"x\"", none,
          none, none⟩ (.success .null)).2 =
      [⟨"PATCH", "/blocks/5de41cd2-7a1b-4883-8ba9-6552c6f228f8", [],
        some [("content", Json.str "x")]⟩] ∧
    Json.str "x" ≠ Json.str "\"x\"" := by
  refine ⟨rfl, rfl, ?_⟩
  simp

set_option maxHeartbeats 2000000 in
/-- Claim C3 (amended): for the update tools, omitted optional fields
never appear as keys in the outgoing body and explicitly provided
fields (an explicit null included) appear with exactly the provided
value, except the string-typed `content` field of the axios variant,
which is sent as its JSON-parsed value when provided non-empty and is
dropped when provided as the empty string; variant D's update-block
(whose content is not string-typed) satisfies the property for every
field, and update-block called with only blockId and kind "text" sends
exactly the body with the single key "kind". -/
theorem update_tools_field_presence :
    (∀ (i : UpdatePageInputC) o, (updatePageC i o).2 =
      [⟨"PATCH", "/pages/" ++ i.pageId, [], some (updatePageDataC i)⟩]) ∧
    (∀ i : UpdatePageInputC,
      (updatePageDataC i).lookup "name" = i.name.map Json.str ∧
      (updatePageDataC i).lookup "description" = i.description.map Json.str ∧
      (updatePageDataC i).lookup "position" =
        i.position.map (fun n => Json.num (toString n)) ∧
      (updatePageDataC i).lookup "slug" = i.slug.map Json.str ∧
      (updatePageDataC i).lookup "bannerMedia" = i.bannerMedia.map Json.obj ∧
      (updatePageDataC i).lookup "logoMedia" = i.logoMedia.map Json.obj ∧
      (updatePageDataC i).lookup "socialIcons" = i.socialIcons.map Json.obj ∧
      ∀ p ∈ updatePageDataC i,
        p.1 = "name" ∨ p.1 = "description" ∨ p.1 = "position" ∨
        p.1 = "slug" ∨ p.1 = "bannerMedia" ∨ p.1 = "logoMedia" ∨
        p.1 = "socialIcons") ∧
    (∀ bid n k ic cb o,
      (updateBlockC ⟨bid, n, none, k, ic, cb⟩ o).2 =
        [⟨"PATCH", "/blocks/" ++ bid, [],
          some (updateBlockDataC ⟨bid, n, none, k, ic, cb⟩)⟩]) ∧
    (∀ bid n k ic cb c v o, jsonParse c = some v →
      (updateBlockC ⟨bid, n, some c, k, ic, cb⟩ o).2 =
        [⟨"PATCH", "/blocks/" ++ bid, [],
          some (updateBlockDataC ⟨bid, n, some c, k, ic, cb⟩ ++
            [("content", v)])⟩]) ∧
    (∀ i : UpdateBlockInputC,
      (updateBlockDataC i).lookup "name" = i.name.map Json.str ∧
      (updateBlockDataC i).lookup "kind" = i.kind.map Json.str ∧
      (updateBlockDataC i).lookup "isComponent" = i.isComponent.map Json.bool ∧
      (updateBlockDataC i).lookup "componentBlockId" =
        i.componentBlockId.map optNull ∧
      (updateBlockDataC i).lookup "content" = none ∧
      ∀ p ∈ updateBlockDataC i,
        p.1 = "name" ∨ p.1 = "kind" ∨ p.1 = "isComponent" ∨
        p.1 = "componentBlockId") ∧
    (∀ pid ic cp o,
      (updatePageThemeC ⟨pid, none, ic, cp⟩ o).2 =
        [⟨"PATCH", "/pages/" ++ pid ++ "/theme", [],
          some (updatePageThemeDataC ⟨pid, none, ic, cp⟩)⟩]) ∧
    (∀ pid ic cp c v o, jsonParse c = some v →
      (updatePageThemeC ⟨pid, some c, ic, cp⟩ o).2 =
        [⟨"PATCH", "/pages/" ++ pid ++ "/theme", [],
          some (updatePageThemeDataC ⟨pid, some c, ic, cp⟩ ++
            [("content", v)])⟩]) ∧
    (∀ i : UpdatePageThemeInputC,
      (updatePageThemeDataC i).lookup "isComponent" =
        i.isComponent.map Json.bool ∧
      (updatePageThemeDataC i).lookup "componentPageThemeId" =
        i.componentPageThemeId.map optNull ∧
      (updatePageThemeDataC i).lookup "content" = none ∧
      ∀ p ∈ updatePageThemeDataC i,
        p.1 = "isComponent" ∨ p.1 = "componentPageThemeId") ∧
    (∀ b n ct k ic cb o, (updateBlockD b n ct k ic cb o).2 =
      [⟨"PATCH", "/blocks/" ++ b, [],
        some (updateBlockDataD n ct k ic cb)⟩]) ∧
    (∀ (n : Option String) (ct : Option Json) (k : Option String)
        (ic : Option Bool) (cb : Option (Option String)),
      (updateBlockDataD n ct k ic cb).lookup "name" = n.map Json.str ∧
      (updateBlockDataD n ct k ic cb).lookup "content" = ct ∧
      (updateBlockDataD n ct k ic cb).lookup "kind" = k.map Json.str ∧
      (updateBlockDataD n ct k ic cb).lookup "isComponent" =
        ic.map Json.bool ∧
      (updateBlockDataD n ct k ic cb).lookup "componentBlockId" =
        cb.map optNull ∧
      ∀ p ∈ updateBlockDataD n ct k ic cb,
        p.1 = "name" ∨ p.1 = "content" ∨ p.1 = "kind" ∨
        p.1 = "isComponent" ∨ p.1 = "componentBlockId") ∧
    (∀ bid o,
      (updateBlockC ⟨bid, none, none, some "text", none, none⟩ o).2 =
        [⟨"PATCH", "/blocks/" ++ bid, [], some [("kind", Json.str "text")]⟩]) ∧
    (∀ bid o,
      (updateBlockD bid none none (some "text") none none o).2 =
        [⟨"PATCH", "/blocks/" ++ bid, [], some [("kind", Json.str "text")]⟩]) := by
  refine ⟨?_, ?_, ?_, ?_, ?_, ?_, ?_, ?_, ?_, ?_, ?_, ?_⟩
  · intro i o; cases o <;> rfl
  · intro i
    obtain ⟨pid, n, d, pos, sl, bm, lm, si⟩ := i
    cases n <;> cases d <;> cases pos <;> cases sl <;> cases bm <;>
      cases lm <;> cases si <;>
      simp [updatePageDataC, optEntry, List.lookup]
  · intro bid n k ic cb o; cases o <;> rfl
  · intro bid n k ic cb c v o h
    have hc : ¬ c = "" := by
      intro e; subst e; rw [jsonParse_empty] at h; cases h
    cases o <;> simp [updateBlockC, hc, h, axiosCall]
  · intro i
    obtain ⟨bid, n, c, k, ic, cb⟩ := i
    cases n <;> cases k <;> cases ic <;> cases cb <;>
      simp [updateBlockDataC, optEntry, List.lookup]
  · intro pid ic cp o; cases o <;> rfl
  · intro pid ic cp c v o h
    have hc : ¬ c = "" := by
      intro e; subst e; rw [jsonParse_empty] at h; cases h
    cases o <;> simp [updatePageThemeC, hc, h, axiosCall]
  · intro i
    obtain ⟨pid, c, ic, cp⟩ := i
    cases ic <;> cases cp <;>
      simp [updatePageThemeDataC, optEntry, List.lookup]
  · intro b n ct k ic cb o
    cases o with
    | failure m => rfl
    | success d =>
      simp only [updateBlockD]
      split
      · split
        · split <;> rfl
        · rfl
      · rfl
  · intro n ct k ic cb
    cases n <;> cases ct <;> cases k <;> cases ic <;> cases cb <;>
      simp [updateBlockDataD, optEntry, List.lookup]
  · intro bid o; cases o <;> rfl
  · intro bid o
    cases o with
    | failure m => rfl
    | success d =>
      simp only [updateBlockD]
      split
      · split
        · split <;> rfl
        · rfl
      · rfl

/-- Witness for the amended claim C3 at concrete inputs: the
valid-JSON content hypotheses are discharged on a literal object
string. -/
theorem update_tools_field_presence_witness :
    (updateBlockC
        ⟨"5de41cd2-7a1b-4883-8ba9-6552c6f228f8", none, some "\x7b\"a\":1\x7d",
          some "text", none, none⟩ (.success .null)).2 =
      [⟨"PATCH", "/blocks/5de41cd2-7a1b-4883-8ba9-6552c6f228f8", [],
        some (updateBlockDataC
          ⟨"5de41cd2-7a1b-4883-8ba9-6552c6f228f8", none,
            some "\x7b\"a\":1\x7d", some "text", none, none⟩ ++
          [("content", Json.obj [("a", Json.num "1")])])⟩] ∧
    (updatePageThemeC
        ⟨"5de41cd2-7a1b-4883-8ba9-6552c6f228f8", some "\x7b\"a\":1\x7d",
          none, none⟩ (.success .null)).2 =
      [⟨"PATCH", "/pages/5de41cd2-7a1b-4883-8ba9-6552c6f228f8/theme", [],
        some (updatePageThemeDataC
          ⟨"5de41cd2-7a1b-4883-8ba9-6552c6f228f8", some "\x7b\"a\":1\x7d",
            none, none⟩ ++
          [("content", Json.obj [("a", Json.num "1")])])⟩] :=
  ⟨update_tools_field_presence.2.2.2.1
      "5de41cd2-7a1b-4883-8ba9-6552c6f228f8" none (some "text") none none
      "\x7b\"a\":1\x7d" (Json.obj [("a", Json.num "1")]) (.success .null) rfl,
    update_tools_field_presence.2.2.2.2.2.2.1
      "5de41cd2-7a1b-4883-8ba9-6552c6f228f8" none none
      "\x7b\"a\":1\x7d" (Json.obj [("a", Json.num "1")]) (.success .null) rfl⟩

/-- A string that parses as JSON is not empty. -/
theorem ne_empty_of_parses {c : String} {v : Json} (h : jsonParse c = some v) :
    ¬ c = "" := by
  intro e; subst e; rw [jsonParse_empty] at h; cases h

set_option maxHeartbeats 1000000 in
/-- Claim C4: for every tool taking a string-typed `content` parameter,
an input whose content string is valid JSON produces an outgoing body
whose `content` entry is exactly the value `jsonParse` returns for that
string. -/
theorem content_string_round_trip :
    (∀ bid n k ic cb c v o, jsonParse c = some v →
      ∃ body, (updateBlockC ⟨bid, n, some c, k, ic, cb⟩ o).2 =
        [⟨"PATCH", "/blocks/" ++ bid, [], some body⟩] ∧
        body.lookup "content" = some v) ∧
    (∀ pid ic cp c v o, jsonParse c = some v →
      ∃ body, (updatePageThemeC ⟨pid, some c, ic, cp⟩ o).2 =
        [⟨"PATCH", "/pages/" ++ pid ++ "/theme", [], some body⟩] ∧
        body.lookup "content" = some v) ∧
    (∀ pid nm k ic cb c v o, jsonParse c = some v →
      ∃ body, (createBlockC ⟨pid, nm, some c, k, ic, cb⟩ o).2 =
        [⟨"POST", "/pages/" ++ pid ++ "/blocks", [], some body⟩] ∧
        body.lookup "content" = some v) ∧
    (∀ bid n k c v o, jsonParse c = some v →
      ∃ body, (updateBlockB bid n (some c) k o).2 =
        [⟨"PATCH", "/blocks/" ++ bid, [], some body⟩] ∧
        body.lookup "content" = some v) ∧
    (∀ pid c v o, jsonParse c = some v →
      (updatePageThemeB pid (some c) o).2 =
        [⟨"PATCH", "/pages/" ++ pid ++ "/theme", [],
          some [("content", v)]⟩]) ∧
    (∀ pid nm k ic cb c v o, jsonParse c = some v →
      ∃ body, (createBlockB pid nm (some c) k ic cb o).2 =
        [⟨"POST", "/pages/" ++ pid ++ "/blocks", [], some body⟩] ∧
        body.lookup "content" = some v) := by
  refine ⟨?_, ?_, ?_, ?_, ?_, ?_⟩
  · intro bid n k ic cb c v o h
    have hc := ne_empty_of_parses h
    refine ⟨updateBlockDataC ⟨bid, n, some c, k, ic, cb⟩ ++ [("content", v)],
      ?_, ?_⟩
    · cases o <;> simp [updateBlockC, hc, h, axiosCall]
    · cases n <;> cases k <;> cases ic <;> cases cb <;>
        simp [updateBlockDataC, optEntry, List.lookup]
  · intro pid ic cp c v o h
    have hc := ne_empty_of_parses h
    refine ⟨updatePageThemeDataC ⟨pid, some c, ic, cp⟩ ++ [("content", v)],
      ?_, ?_⟩
    · cases o <;> simp [updatePageThemeC, hc, h, axiosCall]
    · cases ic <;> cases cp <;>
        simp [updatePageThemeDataC, optEntry, List.lookup]
  · intro pid nm k ic cb c v o h
    have hc := ne_empty_of_parses h
    refine ⟨createBlockDataC ⟨pid, nm, some c, k, ic, cb⟩ ++ [("content", v)],
      ?_, ?_⟩
    · cases o <;> simp [createBlockC, hc, h, axiosCall]
    · cases k <;> cases ic <;> cases cb <;>
        simp [createBlockDataC, optEntry, List.lookup]
  · intro bid n k c v o h
    have hc := ne_empty_of_parses h
    refine ⟨updateBlockRestB n k ++ [("content", v)], ?_, ?_⟩
    · cases o <;> simp [updateBlockB, hc, h, clientCall]
    · cases n <;> cases k <;> simp [updateBlockRestB, optEntry, List.lookup]
  · intro pid c v o h
    have hc := ne_empty_of_parses h
    cases o <;> simp [updatePageThemeB, hc, h, clientCall]
  · intro pid nm k ic cb c v o h
    have hc := ne_empty_of_parses h
    refine ⟨toWire (createBlockDataB nm k ic cb ++ [("content", .val v)]),
      ?_, ?_⟩
    · cases o <;> simp [createBlockB, hc, h, clientCall]
    · cases cb <;> simp [toWire, createBlockDataB, List.lookup]

/-- Witness for claim C4: a concrete JSON object string round-trips
into the outgoing body of the client-variant update-page-theme. -/
theorem content_string_round_trip_witness :
    (updatePageThemeB "p1" (some "\x7b\"b\":true\x7d") (.success .null)).2 =
      [⟨"PATCH", "/pages/p1/theme", [],
        some [("content", Json.obj [("b", Json.bool true)])]⟩] :=
  content_string_round_trip.2.2.2.2.1 "p1" "\x7b\"b\":true\x7d"
    (Json.obj [("b", Json.bool true)]) (.success .null) rfl

/-- Claim C5: a provided non-empty `content` string that is not valid
JSON makes the handler answer with the content-parse-error envelope and
issue no request at all. -/
theorem invalid_content_short_circuits :
    (∀ bid n k ic cb c o, ¬ c = "" → jsonParse c = none →
      updateBlockC ⟨bid, n, some c, k, ic, cb⟩ o = (parseErrorEnvelope c, [])) ∧
    (∀ pid ic cp c o, ¬ c = "" → jsonParse c = none →
      updatePageThemeC ⟨pid, some c, ic, cp⟩ o = (parseErrorEnvelope c, [])) ∧
    (∀ pid nm k ic cb c o, ¬ c = "" → jsonParse c = none →
      createBlockC ⟨pid, nm, some c, k, ic, cb⟩ o = (parseErrorEnvelope c, [])) ∧
    (∀ bid n k c o, ¬ c = "" → jsonParse c = none →
      updateBlockB bid n (some c) k o = (parseErrorEnvelope c, [])) ∧
    (∀ pid c o, ¬ c = "" → jsonParse c = none →
      updatePageThemeB pid (some c) o = (parseErrorEnvelope c, [])) ∧
    (∀ pid nm k ic cb c o, ¬ c = "" → jsonParse c = none →
      createBlockB pid nm (some c) k ic cb o = (parseErrorEnvelope c, [])) := by
  refine ⟨?_, ?_, ?_, ?_, ?_, ?_⟩
  · intro bid n k ic cb c o h1 h2; simp [updateBlockC, h1, h2]
  · intro pid ic cp c o h1 h2; simp [updatePageThemeC, h1, h2]
  · intro pid nm k ic cb c o h1 h2; simp [createBlockC, h1, h2]
  · intro bid n k c o h1 h2; simp [updateBlockB, h1, h2]
  · intro pid c o h1 h2; simp [updatePageThemeB, h1, h2]
  · intro pid nm k ic cb c o h1 h2; simp [createBlockB, h1, h2]

/-- Witness for claim C5 at the malformed content string of the spec's
example: parse-error envelope, empty request list. -/
theorem invalid_content_short_circuits_witness :
    updateBlockC
      ⟨"5de41cd2-7a1b-4883-8ba9-6552c6f228f8", none, some "\x7bnot json",
        none, none, none⟩ (.success .null) =
      (parseErrorEnvelope "\x7bnot json", []) :=
  invalid_content_short_circuits.1 "5de41cd2-7a1b-4883-8ba9-6552c6f228f8"
    none none none none "\x7bnot json" (.success .null) (by decide) rfl

/-- Claim C6: `create-site` with `status` omitted sends the variant's
documented default status ("UNPUBLISHED" in the axios variant,
"ENABLED" in the dist variant), and with `pages` omitted sends exactly
one default page whose slug is the variant's documented index slug
("index", resp. "home"), with an empty theme and no blocks. -/
theorem create_site_defaults :
    (∀ i o, (createSiteC i o).2 =
      [⟨"POST", "/sites", [], some (createSiteDataC i)⟩]) ∧
    (∀ n s b d pg, (createSiteDataC ⟨n, s, b, d, none, pg⟩).lookup "status" =
      some (Json.str "UNPUBLISHED")) ∧
    (∀ n s b d st, (createSiteDataC ⟨n, s, b, d, st, none⟩).lookup "pages" =
      some (Json.arr [Json.obj [("slug", Json.str "index"),
        ("name", Json.str n), ("description", strOrNull d),
        ("pageTheme", Json.obj [("content", Json.obj []),
          ("componentPageThemeId", Json.null)]),
        ("blocks", Json.arr [])]])) ∧
    (∀ n s b d st o, (createSiteE n s b d st o).2 =
      [⟨"POST", "/sites", [], some (createSiteDataE n s b d st)⟩]) ∧
    (∀ n s b d, (createSiteDataE n s b d none).lookup "status" =
      some (Json.str "ENABLED")) ∧
    (∀ n s b d st, (createSiteDataE n s b d st).lookup "pages" =
      some (Json.arr [Json.obj [("slug", Json.str "home"),
        ("name", Json.str "Home"),
        ("pageTheme", Json.obj [("content", Json.null),
          ("isComponent", Json.bool false),
          ("componentPageThemeId", Json.null)]),
        ("blocks", Json.arr [])]])) := by
  refine ⟨?_, ?_, ?_, ?_, ?_, ?_⟩
  · intro i o; cases o <;> rfl
  · intro n s b d pg; simp [createSiteDataC, List.lookup]
  · intro n s b d st; simp [createSiteDataC, defaultPagesC, List.lookup]
  · intro n s b d st o
    cases o with
    | failure m => rfl
    | success data =>
      simp only [createSiteE]
      split
      · split
        · split <;> rfl
        · rfl
      · rfl
  · intro n s b d; simp [createSiteDataE, List.lookup]
  · intro n s b d st; simp [createSiteDataE, List.lookup]

/-- JS interpolation of a plain string value is the string itself. -/
theorem jsToString_str (s : String) : jsToString (Json.str s) = s := by
  simp [jsToString, Json.weight, jsToStringF]

/-- Counterexample to claim C7 as stated: variant D's get-sites catch
branch returns a descriptive failure text without the `Error: ` prefix,
and the content-parse branch of the axios variant uses the distinct
prefix `Error parsing content JSON: `. -/
theorem error_text_prefix_counterexample :
    (getSitesD none none none (.failure "boom")).1 =
      ⟨[⟨"Failed to retrieve sites. Please check your API key and try again."⟩]⟩ ∧
    ("Error: ".data.isPrefixOf
      "Failed to retrieve sites. Please check your API key and try again.".data)
      = false ∧
    (updateBlockC
        ⟨"5de41cd2-7a1b-4883-8ba9-6552c6f228f8", none, some "\x7bno", none,
          none, none⟩ (.success .null)).1 =
      ⟨[⟨"Error parsing content JSON: Unexpected token"⟩]⟩ ∧
    ("Error: ".data.isPrefixOf
      "Error parsing content JSON: Unexpected token".data) = false :=
  ⟨rfl, by decide, rfl, by decide⟩

/-- Claim C7 (amended): failures caught by the axios variant's generic
catch produce exactly `Error: ` ++ the extracted message; a content
parse failure produces the distinct prefix `Error parsing content
JSON: `; and variant D's handlers answer failures with fixed
descriptive texts carrying no `Error: ` prefix. -/
theorem error_text_prefix_by_variant :
    (∀ m p q b st d, (axiosCall m p q b (.httpError st d)).1 =
      ⟨[⟨"Error: " ++ getErrorMessage (.axiosHttp st d)⟩]⟩) ∧
    (∀ m p q b ms, (axiosCall m p q b (.networkError ms)).1 =
      ⟨[⟨"Error: " ++ getErrorMessage (.axiosNetwork ms)⟩]⟩) ∧
    (∀ s st d, (getSiteC s (.httpError st d)).1 =
      ⟨[⟨"Error: " ++ getErrorMessage (.axiosHttp st d)⟩]⟩) ∧
    (∀ s ms, (getSiteC s (.networkError ms)).1 =
      ⟨[⟨"Error: " ++ getErrorMessage (.axiosNetwork ms)⟩]⟩) ∧
    (∀ bid n k ic cb st d,
      (updateBlockC ⟨bid, n, none, k, ic, cb⟩ (.httpError st d)).1 =
        ⟨[⟨"Error: " ++ getErrorMessage (.axiosHttp st d)⟩]⟩) ∧
    (∀ bid n k ic cb c o, ¬ c = "" → jsonParse c = none →
      (updateBlockC ⟨bid, n, some c, k, ic, cb⟩ o).1 =
        ⟨[⟨"Error parsing content JSON: " ++ parseErrorMessage c⟩]⟩) ∧
    (∀ ps cu se m, (getSitesD ps cu se (.failure m)).1 =
      ⟨[⟨"Failed to retrieve sites. Please check your API key and try again."⟩]⟩) ∧
    (∀ b n ct k ic cb m, (updateBlockD b n ct k ic cb (.failure m)).1 =
      ⟨[⟨"Failed to update block with ID: " ++ b ++
        ". The block may not exist or you may not have permission to update it."⟩]⟩) := by
  refine ⟨?_, ?_, ?_, ?_, ?_, ?_, ?_, ?_⟩
  · intro m p q b st d; rfl
  · intro m p q b ms; rfl
  · intro s st d; rfl
  · intro s ms; rfl
  · intro bid n k ic cb st d; rfl
  · intro bid n k ic cb c o h1 h2; simp [updateBlockC, h1, h2, parseErrorEnvelope]
  · intro ps cu se m; rfl
  · intro b n ct k ic cb m; rfl

/-- Witness for the amended claim C7: the parse-failure conjunct at a
concrete malformed content string. -/
theorem error_text_prefix_by_variant_witness :
    (updateBlockC ⟨"b1", none, some "\x7bbad", none, none, none⟩
        (.success .null)).1 =
      ⟨[⟨"Error parsing content JSON: " ++ parseErrorMessage "\x7bbad"⟩]⟩ :=
  error_text_prefix_by_variant.2.2.2.2.2.1 "b1" none none none none "\x7bbad"
    (.success .null) (by decide) rfl

/-- Counterexample to claim C8 as stated: a 404 whose body carries the
(present but empty, hence falsy) message field "" is answered with the
axios status text, not with `Error: ` followed by that message field. -/
theorem get_site_empty_message_counterexample :
    (getSiteC "11111111-1111-1111-1111-111111111111"
        (.httpError 404 (Json.obj [("message", Json.str "")]))).1 =
      ⟨[⟨"Error: Request failed with status code 404"⟩]⟩ ∧
    "Error: Request failed with status code 404" ≠ "Error: " :=
  ⟨rfl, by decide⟩

/-- Claim C8 (amended): for get-site, a non-2xx response whose body has
a non-empty string `message` field is answered with exactly `Error: `
followed by that message; in particular a 404 with message
"Site not found" yields "Error: Site not found". -/
theorem get_site_upstream_message_extraction :
    (∀ siteId st d m, d.getField "message" = some (Json.str m) → ¬ m = "" →
      (getSiteC siteId (.httpError st d)).1 = ⟨[⟨"Error: " ++ m⟩]⟩) ∧
    (∀ siteId,
      (getSiteC siteId
          (.httpError 404 (Json.obj [("message", Json.str "Site not found")]))).1 =
        ⟨[⟨"Error: Site not found"⟩]⟩) := by
  constructor
  · intro siteId st d m h hm
    simp [getSiteC, axiosCall, getErrorMessage, h, jsTruthy, hm, jsToString_str]
  · intro siteId
    show (⟨[⟨"Error: " ++ getErrorMessage
      (.axiosHttp 404 (Json.obj [("message", Json.str "Site not found")]))⟩]⟩ :
        Envelope) = ⟨[⟨"Error: Site not found"⟩]⟩
    simp [getErrorMessage, Json.getField, List.lookup, jsTruthy, jsToString_str]

/-- Witness for the amended claim C8 at a concrete 500 response. -/
theorem get_site_upstream_message_extraction_witness :
    (getSiteC "s1" (.httpError 500 (Json.obj [("message", Json.str "boom")]))).1 =
      ⟨[⟨"Error: boom"⟩]⟩ :=
  get_site_upstream_message_extraction.1 "s1" 500
    (Json.obj [("message", Json.str "boom")]) "boom" rfl (by decide)

/-- Counterexample to claim C9 as stated: in the client-library variant
of create-block, an absent `componentBlockId` sits in the object as
`undefined` and is dropped from the serialized body, so the outgoing
body carries no `componentBlockId` key at all. -/
theorem create_block_component_id_counterexample :
    (createBlockB "2c9e287f-2a3c-4f84-9f2a-111111111111" "Hero" none "text"
        none none (.success .null)).2 =
      [⟨"POST", "/pages/2c9e287f-2a3c-4f84-9f2a-111111111111/blocks", [],
        some [("name", Json.str "Hero"), ("kind", Json.str "text"),
          ("isComponent", Json.bool false)]⟩] ∧
    ([("name", Json.str "Hero"), ("kind", Json.str "text"),
        ("isComponent", Json.bool false)].lookup "componentBlockId"
      = (none : Option Json)) :=
  ⟨rfl, rfl⟩

/-- Claim C9 (amended): create-block's handling of an absent
`componentBlockId` differs by variant — the axios variant coerces it to
an explicit `null` key in the outgoing body, while the client-library
variant leaves it `undefined`, so the key is dropped from the
serialized body. -/
theorem create_block_component_id_by_variant :
    (∀ pid nm k ic o, (createBlockC ⟨pid, nm, none, k, ic, none⟩ o).2 =
      [⟨"POST", "/pages/" ++ pid ++ "/blocks", [],
        some (createBlockDataC ⟨pid, nm, none, k, ic, none⟩)⟩]) ∧
    (∀ pid nm k ic,
      (createBlockDataC ⟨pid, nm, none, k, ic, none⟩).lookup "componentBlockId"
        = some Json.null) ∧
    (∀ nm k ic,
      (toWire (createBlockDataB nm k ic none)).lookup "componentBlockId"
        = none) ∧
    (∀ pid nm k ic o, (createBlockB pid nm none k ic none o).2 =
      [⟨"POST", "/pages/" ++ pid ++ "/blocks", [],
        some (toWire (createBlockDataB nm k ic none))⟩]) := by
  refine ⟨?_, ?_, ?_, ?_⟩
  · intro pid nm k ic o; cases o <;> rfl
  · intro pid nm k ic
    cases k <;> cases ic <;> simp [createBlockDataC, optEntry, List.lookup]
  · intro nm k ic; rfl
  · intro pid nm k ic o; cases o <;> rfl

/-- Claim C10: a `content` parameter provided as the empty string is
treated exactly as an absent one — the truthiness guard skips the
parse, sends no `content` key, and produces no parse-error envelope —
in every content-taking tool of both the axios and the client-library
variants. -/
theorem empty_content_treated_as_absent :
    (∀ bid n k ic cb o, updateBlockC ⟨bid, n, some "", k, ic, cb⟩ o =
      updateBlockC ⟨bid, n, none, k, ic, cb⟩ o) ∧
    (∀ pid ic cp o, updatePageThemeC ⟨pid, some "", ic, cp⟩ o =
      updatePageThemeC ⟨pid, none, ic, cp⟩ o) ∧
    (∀ pid nm k ic cb o, createBlockC ⟨pid, nm, some "", k, ic, cb⟩ o =
      createBlockC ⟨pid, nm, none, k, ic, cb⟩ o) ∧
    (∀ bid n k o, updateBlockB bid n (some "") k o =
      updateBlockB bid n none k o) ∧
    (∀ pid o, updatePageThemeB pid (some "") o =
      updatePageThemeB pid none o) ∧
    (∀ pid nm k ic cb o, createBlockB pid nm (some "") k ic cb o =
      createBlockB pid nm none k ic cb o) := by
  refine ⟨?_, ?_, ?_, ?_, ?_, ?_⟩ <;> intros <;> rfl
